import Mathlib

/-!
Shallow embedding of the rate-limit-aware tweet-liking client in
`tweets_app.py` (repository `tweetsliker`).

Modelling conventions:
- Timestamps (`time.time()`, header values) are `Int` seconds, matching
  integer arithmetic in Python (`int(...)` of a header string may be
  negative).
- The remote SDK (tweepy) is modelled as oracles: the outcome of each
  remote call (`get_me`, `get_tweet`, `client.like`) is an input to the
  embedded function, so that "which remote calls were issued" is explicit
  in a `Trace`.
- Streamlit session state (`st.session_state`) becomes the explicit
  record `AppState`; the keys used by the core are
  `last_request_time`, `rate_limited`, `rate_limit_reset`,
  `rate_limit_retry_after`, `last_response`.
- Python format strings are embedded as constructors carrying exactly the
  data interpolated at the corresponding source line (the surrounding
  constant text adds no behaviour); `time.strftime` rendering of
  `formatted_time` is display formatting and carries the same
  `reset_time` value already recorded, so it is not modelled separately.
-/

/-- Session state of the app (`st.session_state` keys used by the core). -/
structure AppState where
  last_request_time : List Int
  rate_limited : Bool
  rate_limit_reset : Int
  rate_limit_retry_after : Int
  last_response : Option String
  deriving DecidableEq, Repr

/-- The session state before any key is set: `last_request_time` absent
(empty), `rate_limited` absent (read back as `False` via
`st.session_state.get` with default `False`). -/
def initialState : AppState :=
  { last_request_time := []
    rate_limited := false
    rate_limit_reset := 0
    rate_limit_retry_after := 0
    last_response := none }

/-- Rate-limit headers of an error response
(`e.response.headers`, lines 139-147): each header either absent or an
integer value (Python applies `int(...)` to the header string). -/
structure RLHeaders where
  xRateLimitReset : Option Int
  retryAfter : Option Int
  deriving DecidableEq, Repr

/-- `e.response`: headers, `status_code`, and `text` (reading `.text` can
itself raise, hence `Option String`; the source wraps it in try/except). -/
structure RespInfo where
  headers : RLHeaders
  status_code : Int
  text : Option String
  deriving DecidableEq, Repr

/-- The tweepy exception class of a raised error, driving the
`except` dispatch in `like_tweet` and `check_tweet`. `otherE` is any
exception not among the four named classes. -/
inductive ExcKind where
  | notFoundE
  | tooManyRequestsE
  | unauthorizedE
  | forbiddenE
  | otherE
  deriving DecidableEq, Repr

/-- A raised exception: its class, its `str(e)` rendering, and its
`response` attribute when present (present when the error has a
non-`None` `response` attribute). -/
structure RemoteExc where
  kind : ExcKind
  raw : String
  response : Option RespInfo
  deriving DecidableEq, Repr

/-- Result of `extract_rate_limit_info` (the `formatted_time` field of the
returned dict is `strftime` applied to `reset_time` and carries no further
data). -/
structure RateInfo where
  reset_time : Int
  retry_after : Int
  deriving DecidableEq, Repr

/-- `extract_rate_limit_info(error)` (lines 133-153): default window of
`3 * 60 = 180` seconds; an `x-rate-limit-reset` header overrides
`reset_time` with `retry_after = max(reset_time - now, 0)`; otherwise a
`retry-after` header gives `retry_after` directly with
`reset_time = now + retry_after`. `now` is `int(time.time())`. -/
def extract_rate_limit_info (response : Option RespInfo) (now : Int) : RateInfo :=
  match response with
  | none => { reset_time := now + 3 * 60, retry_after := 3 * 60 }
  | some r =>
    match r.headers.xRateLimitReset with
    | some rt => { reset_time := rt, retry_after := max (rt - now) 0 }
    | none =>
      match r.headers.retryAfter with
      | some ra => { reset_time := now + ra, retry_after := ra }
      | none => { reset_time := now + 3 * 60, retry_after := 3 * 60 }

/-- Outcome of the remote `client.get_tweet(tweet_id)` call inside
`check_tweet`: a response (with `tweet and tweet.data` truthiness and the
optional `text` attribute), or a raised exception. -/
inductive GetTweetOutcome where
  | resp (hasData : Bool) (text : Option String)
  | exc (e : RemoteExc)
  deriving DecidableEq, Repr

/-- The message part of the return value of `check_tweet`, one constructor per
source format string (lines 160-167). -/
inductive CheckMsg where
  | previewText (t : String)
  | existsNoText
  | notAccessibleMsg
  | notFoundMsg
  | errorCheckingMsg (raw : String)
  deriving DecidableEq, Repr

/-- `check_tweet(client, tweet_id)` (lines 157-167): returns
`(exists?, message)`. `tweepy.NotFound` is caught specially; every other
exception (including `TooManyRequests`) falls to the generic handler
returning `f"Error checking tweet: {str(e)}"`. -/
def check_tweet (g : GetTweetOutcome) : Bool × CheckMsg :=
  match g with
  | .resp true (some t) => (true, .previewText t)
  | .resp true none => (true, .existsNoText)
  | .resp false _ => (false, .notAccessibleMsg)
  | .exc e =>
    if e.kind = .notFoundE then (false, .notFoundMsg)
    else (false, .errorCheckingMsg e.raw)

/-- Outcome of the remote `client.like(tweet_id)` call. -/
inductive LikeCallOutcome where
  | ok (resp : String)
  | exc (e : RemoteExc)
  deriving DecidableEq, Repr

/-- The message returned by `like_tweet`, one constructor per source
format string (lines 174-250), carrying exactly the interpolated data. -/
inductive LikeMsg where
  | clientMissing
  | cannotLike (verifyMsg : CheckMsg)
  | likedOk (resp : String)
  | rateLimitMsg (reset_time retry_after : Int) (details : Option String)
  | authErrorMsg (details : Option String)
  | likeNotFoundMsg (tweet_id : String) (details : Option String)
  | forbiddenMsg (tweet_id : String) (details : Option String)
  | errorLikingMsg (raw : String) (statusDetails : Option (Int × String))
  deriving DecidableEq, Repr

/-- Which remote calls an invocation issued: the verification fetch
(`client.get_tweet` inside `check_tweet`) and the write action
(`client.like`). -/
structure Trace where
  verifyCalled : Bool
  likeCalled : Bool
  deriving DecidableEq, Repr

/-- The tracker update on a successful like (lines 188-195): append the
current time to `last_request_time` and `pop(0)` when the length exceeds
10. -/
def recordSuccess (lst : List Int) (t : Int) : List Int :=
  let appended := lst ++ [t]
  if appended.length > 10 then appended.tail else appended

/-- Result of `like_tweet`: the updated session state, the `(bool, str)`
return value, and the trace of remote calls issued. -/
structure LikeResult where
  state : AppState
  success : Bool
  msg : LikeMsg
  trace : Trace
  deriving DecidableEq, Repr

/-- `like_tweet(client, tweet_id)` (lines 171-250). `hasClient` models
`if not client`. `getTweet` and `likeCall` are the oracles for the two
remote calls; `now` is the `time.time()` observed in the success path and
in `extract_rate_limit_info`. The write call is issued only after
`check_tweet` reports the tweet exists; the `TooManyRequests` handler
records the rate limit in session state; all other handlers leave the
state unchanged. -/
def like_tweet (hasClient : Bool) (st : AppState) (tweet_id : String)
    (getTweet : GetTweetOutcome) (likeCall : LikeCallOutcome) (now : Int) :
    LikeResult :=
  if !hasClient then
    { state := st, success := false, msg := .clientMissing
      trace := { verifyCalled := false, likeCalled := false } }
  else
    let checked := check_tweet getTweet
    if !checked.1 then
      { state := st, success := false, msg := .cannotLike checked.2
        trace := { verifyCalled := true, likeCalled := false } }
    else
      match likeCall with
      | .ok resp =>
        let st1 := { st with last_response := some resp }
        let st2 := { st1 with
          last_request_time := recordSuccess st1.last_request_time now }
        { state := st2, success := true, msg := .likedOk resp
          trace := { verifyCalled := true, likeCalled := true } }
      | .exc e =>
        match e.kind with
        | .tooManyRequestsE =>
          let ri := extract_rate_limit_info e.response now
          { state := { st with
              rate_limited := true
              rate_limit_reset := ri.reset_time
              rate_limit_retry_after := ri.retry_after }
            success := false
            msg := .rateLimitMsg ri.reset_time ri.retry_after
              (e.response.bind RespInfo.text)
            trace := { verifyCalled := true, likeCalled := true } }
        | .unauthorizedE =>
          { state := st, success := false
            msg := .authErrorMsg (e.response.bind RespInfo.text)
            trace := { verifyCalled := true, likeCalled := true } }
        | .notFoundE =>
          { state := st, success := false
            msg := .likeNotFoundMsg tweet_id (e.response.bind RespInfo.text)
            trace := { verifyCalled := true, likeCalled := true } }
        | .forbiddenE =>
          { state := st, success := false
            msg := .forbiddenMsg tweet_id (e.response.bind RespInfo.text)
            trace := { verifyCalled := true, likeCalled := true } }
        | .otherE =>
          { state := st, success := false
            msg := .errorLikingMsg e.raw
              (e.response.bind fun r => r.text.map fun t => (r.status_code, t))
            trace := { verifyCalled := true, likeCalled := true } }

/-- The rate-limit window query (`IsActive` of the spec), as performed at
lines 442-451 and 477-484: the window is active iff `rate_limited` is set
and `max(rate_limit_reset - now, 0) > 0`; when the remaining time is not
positive the `rate_limited` flag is cleared as a side effect. Returns the
boolean and the (possibly cleared) state. -/
def isActive (st : AppState) (now : Int) : Bool × AppState :=
  if st.rate_limited then
    if max (st.rate_limit_reset - now) 0 > 0 then (true, st)
    else (false, { st with rate_limited := false })
  else (false, st)

/-- The tracker update of the `TooManyRequests` handler (`RecordRateLimit`
of the spec, lines 199-206): store the extracted `reset_time` and
`retry_after` and set `rate_limited`. -/
def recordRateLimit (st : AppState) (response : Option RespInfo) (now : Int) :
    AppState :=
  let ri := extract_rate_limit_info response now
  { st with
    rate_limited := true
    rate_limit_reset := ri.reset_time
    rate_limit_retry_after := ri.retry_after }

/-- The capacity estimate displayed at lines 429-437: with no recorded
requests nothing is computed ("No recent requests tracked"); otherwise
`max(50 - count * 86400 / max(now - oldest, 1), 0)` with Python float
division modelled as exact rational division. -/
def estimateRemaining (lst : List Int) (now : Int) : Option ℚ :=
  match lst with
  | [] => none
  | oldest :: rest =>
    let recent_count : ℚ := (oldest :: rest).length
    let time_span : ℚ := (now : ℚ) - (oldest : ℚ)
    some (max (50 - recent_count * (24 * 60 * 60) / max time_span 1) 0)

/-- Result of pressing the "Like Tweet" button (lines 473-497), one
constructor per displayed outcome: the empty-id error, the
rate-limit pre-check error (showing `remaining_time` seconds), or the
`(success, message)` pair from `like_tweet`. -/
inductive FlowResult where
  | emptyIdErr
  | rateLimitedPre (remainingSeconds : Int)
  | likeOutcome (success : Bool) (msg : LikeMsg)
  deriving DecidableEq, Repr

/-- Result of the button-press flow: final session state, displayed
outcome, and the trace of remote calls issued. -/
structure FlowOut where
  state : AppState
  result : FlowResult
  trace : Trace
  deriving DecidableEq, Repr

/-- The "Like Tweet" button handler (lines 473-497): reject an empty id;
otherwise if `rate_limited` is set and `max(rate_limit_reset - now, 0)`
is positive, report the rate limit without any remote call; otherwise
(clearing a stale `rate_limited` flag first) run `like_tweet`. The
countdown loop that may follow a rate-limited failure (lines 499-523) is
modelled separately by `countdown`. -/
def like_button_flow (hasClient : Bool) (st : AppState) (tweet_id : String)
    (getTweet : GetTweetOutcome) (likeCall : LikeCallOutcome) (now : Int) :
    FlowOut :=
  if tweet_id = "" then
    { state := st, result := .emptyIdErr
      trace := { verifyCalled := false, likeCalled := false } }
  else if st.rate_limited then
    let remaining := max (st.rate_limit_reset - now) 0
    if remaining > 0 then
      { state := st, result := .rateLimitedPre remaining
        trace := { verifyCalled := false, likeCalled := false } }
    else
      let st0 := { st with rate_limited := false }
      let r := like_tweet hasClient st0 tweet_id getTweet likeCall now
      { state := r.state, result := .likeOutcome r.success r.msg
        trace := r.trace }
  else
    let r := like_tweet hasClient st tweet_id getTweet likeCall now
    { state := r.state, result := .likeOutcome r.success r.msg
      trace := r.trace }

/-- Terminal state of the countdown loop: fell out of the `for` normally,
or left it via the cancellation `break`. -/
inductive CdState where
  | Completed
  | Cancelled
  deriving DecidableEq, Repr

/-- One pass of the countdown loop (lines 505-513):
`for remaining in range(total, 0, -1)` iterates `total, total-1, ..., 1`;
at each iteration the cancellation flag is read first (`cancel` is a
function of the number of ticks already displayed), then the remaining
count is displayed as a tick and the loop sleeps one second. -/
def runCountdown (rem : Nat) (cancel : Nat → Bool) (ticksSoFar : Nat) :
    List Nat × CdState :=
  match rem with
  | 0 => ([], .Completed)
  | r + 1 =>
    if cancel ticksSoFar then ([], .Cancelled)
    else
      let rest := runCountdown r cancel (ticksSoFar + 1)
      ((r + 1) :: rest.1, rest.2)

/-- The countdown started at `int(rate_limit_retry_after)` (lines
504-513): the list of displayed remaining-seconds ticks and the terminal
state. -/
def countdown (totalSeconds : Nat) (cancel : Nat → Bool) :
    List Nat × CdState :=
  runCountdown totalSeconds cancel 0

/-- Session identity resolved by `authenticate_twitter` on success. -/
structure Session where
  userId : Int
  username : String
  deriving DecidableEq, Repr

/-- Outcome of the `client.get_me()` validation call inside
`authenticate_twitter` (client construction failures are folded into
`exc` since the same `except` catches both). -/
inductive GetMeOutcome where
  | ok (id : Int) (username : String)
  | noData
  | exc (e : RemoteExc)
  deriving DecidableEq, Repr

/-- The message part of the return value of `authenticate_twitter` (lines
79-91): success echo, the no-details success, or the failure message
carrying `str(e)`, the status code when a response is present, and the
response text when readable. -/
inductive AuthMsg where
  | okMsg (username : String) (id : Int)
  | successNoDetails
  | failedMsg (raw : String) (status : Option Int) (details : Option String)
  deriving DecidableEq, Repr

/-- `authenticate_twitter(...)` (lines 62-91): a single generic `except`
handles every failure the same way — no session, `success = False`, and a
message built from `str(e)` plus `Status:` (whenever a response exists)
plus `Details:` (when the response text is readable). -/
def authenticate_twitter (getMe : GetMeOutcome) :
    Option Session × Bool × AuthMsg :=
  match getMe with
  | .ok uid uname => (some { userId := uid, username := uname }, true, .okMsg uname uid)
  | .noData => (none, false, .successNoDetails)
  | .exc e =>
    (none, false,
      .failedMsg e.raw (e.response.map RespInfo.status_code)
        (e.response.bind RespInfo.text))

/-! ## Helper lemmas -/

/-- The rate-limit query returns true exactly when the flag is set and the
recorded reset instant is still in the future. -/
theorem isActive_fst_true_iff (st : AppState) (now : Int) :
    (isActive st now).1 = true ↔
      st.rate_limited = true ∧ now < st.rate_limit_reset := by
  unfold isActive
  by_cases hrl : st.rate_limited
  · by_cases hlt : max (st.rate_limit_reset - now) 0 > 0
    · simp [hrl, hlt]
      omega
    · simp [hrl, hlt]
      omega
  · simp [hrl]

/-- When the flag is set and the reset instant is in the future, the
query reports an active window and leaves the state untouched. -/
theorem isActive_of_lt (st : AppState) (now : Int)
    (h1 : st.rate_limited = true) (h2 : now < st.rate_limit_reset) :
    isActive st now = (true, st) := by
  have hmax : max (st.rate_limit_reset - now) 0 > 0 := by omega
  simp [isActive, h1, hmax]

/-- Once the reset instant has been reached, the query reports an
inactive window and clears the flag. -/
theorem isActive_of_ge (st : AppState) (now : Int)
    (h2 : st.rate_limit_reset ≤ now) :
    isActive st now = (false, { st with rate_limited := false }) := by
  cases st with
  | mk lrt rl reset retry lresp =>
    cases rl
    · simp [isActive]
    · have hmax : ¬ (max (reset - now) 0 > 0) := by
        simp only [AppState.rate_limit_reset] at h2
        omega
      simp [isActive, hmax]

/-! ## Claims -/

/-- C1: while the recorded rate-limit window is active (the tracker query
returns true at `now`), pressing the Like button with a non-empty id
reports the rate limit sourced from the tracker
(`remaining = rate_limit_reset - now` seconds) and issues neither the
verification fetch nor the write call; the state is untouched. -/
theorem c1_precheck_short_circuits (hasClient : Bool) (st : AppState)
    (tweet_id : String) (g : GetTweetOutcome) (l : LikeCallOutcome)
    (now : Int) (hid : tweet_id ≠ "")
    (hact : (isActive st now).1 = true) :
    like_button_flow hasClient st tweet_id g l now =
      { state := st
        result := .rateLimitedPre (st.rate_limit_reset - now)
        trace := { verifyCalled := false, likeCalled := false } } := by
  obtain ⟨hrl, hlt⟩ := (isActive_fst_true_iff st now).mp hact
  unfold like_button_flow
  rw [if_neg hid]
  have hmax : max (st.rate_limit_reset - now) 0 = st.rate_limit_reset - now := by
    omega
  simp [hrl, hmax, hlt]

/-- Witness for C1 at a concrete active window. -/
theorem c1_precheck_short_circuits_witness :
    (isActive { initialState with rate_limited := true, rate_limit_reset := 100 } 0).1 = true
    ∧ like_button_flow true
        { initialState with rate_limited := true, rate_limit_reset := 100 }
        "1" (.resp true none) (.ok "r") 0 =
      { state := { initialState with rate_limited := true, rate_limit_reset := 100 }
        result := .rateLimitedPre 100
        trace := { verifyCalled := false, likeCalled := false } } := by
  refine ⟨by decide, ?_⟩
  have h := c1_precheck_short_circuits true
    { initialState with rate_limited := true, rate_limit_reset := 100 }
    "1" (.resp true none) (.ok "r") 0 (by decide) (by decide)
  simpa using h

/-- C2: the write call is issued exactly when a client is present and the
verification succeeded; when verification fails, `like_tweet` returns the
verification failure and never issues the write call. -/
theorem c2_verify_before_write (hasClient : Bool) (st : AppState)
    (tweet_id : String) (g : GetTweetOutcome) (l : LikeCallOutcome)
    (now : Int) :
    ((like_tweet hasClient st tweet_id g l now).trace.likeCalled
        = (hasClient && (check_tweet g).1))
    ∧ ((check_tweet g).1 = false → hasClient = true →
        like_tweet hasClient st tweet_id g l now =
          { state := st, success := false
            msg := .cannotLike (check_tweet g).2
            trace := { verifyCalled := true, likeCalled := false } }) := by
  constructor
  · cases hasClient with
    | false => simp [like_tweet]
    | true =>
      by_cases hc : (check_tweet g).1
      · rcases l with r | e
        · simp [like_tweet, hc]
        · rcases e with ⟨k, raw, resp⟩
          cases k <;> simp [like_tweet, hc]
      · simp at hc
        simp [like_tweet, hc]
  · intro hc hcl
    subst hcl
    simp [like_tweet, hc]

/-- Witness for C2: a failing verification with a client present. -/
theorem c2_verify_before_write_witness :
    (check_tweet (.exc { kind := .notFoundE, raw := "nf", response := none })).1 = false
    ∧ like_tweet true initialState "7"
        (.exc { kind := .notFoundE, raw := "nf", response := none }) (.ok "r") 5 =
      { state := initialState, success := false
        msg := .cannotLike (check_tweet (.exc { kind := .notFoundE, raw := "nf", response := none })).2
        trace := { verifyCalled := true, likeCalled := false } } := by
  refine ⟨by decide, ?_⟩
  exact (c2_verify_before_write true initialState "7"
    (.exc { kind := .notFoundE, raw := "nf", response := none }) (.ok "r") 5).2
    (by decide) rfl

/-- C3 counterexample: an explicit `x-rate-limit-reset` header already in
the past (header value 5, `now = 10`) is recorded, yet the immediate
query at the same `now` returns false — the claim says it "is always
true". -/
theorem c3_record_then_query_counterexample :
    (isActive
      (recordRateLimit initialState
        (some { headers := { xRateLimitReset := some 5, retryAfter := none }
                status_code := 429, text := none }) 10) 10).1 = false := by
  decide

/-- C3 (amended): after recording a rate limit at `now`, the immediate
query at `now` returns true exactly when the derived reset instant lies
in the future — which always holds when no explicit reset-instant header
is present and any retry-after value is positive; and for every
`now2 ≥ resetAt` the query returns false and clears the flag. -/
theorem c3_record_then_query (st : AppState) (response : Option RespInfo)
    (now now2 : Int) :
    (now < (recordRateLimit st response now).rate_limit_reset →
      isActive (recordRateLimit st response now) now =
        (true, recordRateLimit st response now))
    ∧ ((∀ r, response = some r → r.headers.xRateLimitReset = none) →
        (∀ r ra, response = some r → r.headers.retryAfter = some ra → 0 < ra) →
        now < (recordRateLimit st response now).rate_limit_reset)
    ∧ ((recordRateLimit st response now).rate_limit_reset ≤ now2 →
        isActive (recordRateLimit st response now) now2 =
          (false, { recordRateLimit st response now with rate_limited := false })) := by
  refine ⟨?_, ?_, ?_⟩
  · intro hlt
    exact isActive_of_lt _ _ rfl hlt
  · intro hnoReset hpos
    rcases response with _ | r
    · simp [recordRateLimit, extract_rate_limit_info]
    · have h1 : r.headers.xRateLimitReset = none := hnoReset r rfl
      rcases hra : r.headers.retryAfter with _ | ra
      · simp [recordRateLimit, extract_rate_limit_info, h1, hra]
      · have h2 : 0 < ra := hpos r ra rfl hra
        simp [recordRateLimit, extract_rate_limit_info, h1, hra]
        omega
  · intro hge
    exact isActive_of_ge _ _ hge

/-- Witness for C3 (amended): no headers at all, so the 180-second default
window applies; active at `now = 0`, inactive and cleared at `now2 = 200`. -/
theorem c3_record_then_query_witness :
    isActive (recordRateLimit initialState none 0) 0 =
      (true, recordRateLimit initialState none 0)
    ∧ isActive (recordRateLimit initialState none 0) 200 =
      (false, { recordRateLimit initialState none 0 with rate_limited := false }) := by
  refine ⟨?_, ?_⟩
  · exact (c3_record_then_query initialState none 0 200).1 (by decide)
  · exact (c3_record_then_query initialState none 0 200).2.2 (by decide)

/-- C4 counterexample: the countdown loop iterates
`range(total, 0, -1)`, so with `totalSeconds = 3` and no cancellation the
displayed ticks are `3, 2, 1` — never `0` as the claim states. -/
theorem c4_countdown_counterexample :
    countdown 3 (fun _ => false) ≠ ([3, 2, 1, 0], CdState.Completed) := by
  decide

/-- C4 (amended): with `totalSeconds = 3` and a never-true cancellation
flag the countdown produces exactly the ticks `3, 2, 1` (stopping at 1,
the loop never displays 0) and terminates Completed; if cancellation
becomes true after the first tick it terminates Cancelled after exactly
one tick. -/
theorem c4_countdown_ticks :
    countdown 3 (fun _ => false) = ([3, 2, 1], CdState.Completed)
    ∧ countdown 3 (fun n => decide (1 ≤ n)) = ([3], CdState.Cancelled) := by
  decide

/-- C6 counterexample: a `retry-after` header of `-1` (Python
`int(headers[...])` can be negative) with no reset header yields
`retry_after = -1`, which is not `max(resetAt - now, 0) = 0` — the
claim asserts the clamped form "in every case". -/
theorem c6_retry_after_counterexample :
    ¬ ((recordRateLimit initialState
          (some { headers := { xRateLimitReset := none, retryAfter := some (-1) }
                  status_code := 429, text := none }) 100).rate_limit_retry_after
        = max ((recordRateLimit initialState
          (some { headers := { xRateLimitReset := none, retryAfter := some (-1) }
                  status_code := 429, text := none }) 100).rate_limit_reset - 100) 0) := by
  decide

/-- C6 (amended): the reset instant is derived preferentially from the
explicit reset header (with `retry_after = max(resetAt - now, 0)`), else
from the retry-after header as `now + duration` with `retry_after` equal
to the raw duration (which equals `max(resetAt - now, 0)` whenever the
duration is non-negative), else defaulting to `now + 180` with
`retry_after = 180`; `recordRateLimit` stores exactly these two values
and sets the flag. In particular retry-after 120 with no reset header
gives `resetAt = now + 120`, `retry_after = 120`. -/
theorem c6_rate_limit_extraction (st : AppState) (response : Option RespInfo)
    (now : Int) :
    (∀ r rt, response = some r → r.headers.xRateLimitReset = some rt →
      extract_rate_limit_info response now =
        { reset_time := rt, retry_after := max (rt - now) 0 })
    ∧ (∀ r ra, response = some r → r.headers.xRateLimitReset = none →
        r.headers.retryAfter = some ra →
        extract_rate_limit_info response now =
          { reset_time := now + ra, retry_after := ra }
        ∧ (0 ≤ ra → ra = max ((now + ra) - now) 0))
    ∧ ((response = none ∨
          ∃ r, response = some r ∧ r.headers.xRateLimitReset = none ∧
            r.headers.retryAfter = none) →
        extract_rate_limit_info response now =
          { reset_time := now + 3 * 60, retry_after := 3 * 60 })
    ∧ recordRateLimit st response now =
        { st with
          rate_limited := true
          rate_limit_reset := (extract_rate_limit_info response now).reset_time
          rate_limit_retry_after := (extract_rate_limit_info response now).retry_after } := by
  refine ⟨?_, ?_, ?_, rfl⟩
  · rintro r rt rfl hrt
    simp [extract_rate_limit_info, hrt]
  · rintro r ra rfl hnone hra
    refine ⟨by simp [extract_rate_limit_info, hnone, hra], ?_⟩
    intro h0
    omega
  · rintro (rfl | ⟨r, rfl, hnone, hra⟩)
    · simp [extract_rate_limit_info]
    · simp [extract_rate_limit_info, hnone, hra]

/-- Witness for C6 (amended): the 120-second retry-after example of the
claim, at `now = 1000`. -/
theorem c6_rate_limit_extraction_witness :
    extract_rate_limit_info
      (some { headers := { xRateLimitReset := none, retryAfter := some 120 }
              status_code := 429, text := none }) 1000 =
      { reset_time := 1000 + 120, retry_after := 120 } := by
  exact ((c6_rate_limit_extraction initialState
    (some { headers := { xRateLimitReset := none, retryAfter := some 120 }
            status_code := 429, text := none }) 1000).2.1 _ 120 rfl rfl rfl).1

/-- A single `recordSuccess` keeps the last 10 entries of the appended
list. -/
theorem recordSuccess_eq_drop (l : List Int) (t : Int) (hl : l.length ≤ 10) :
    recordSuccess l t = (l ++ [t]).drop ((l ++ [t]).length - 10) := by
  unfold recordSuccess
  simp only [List.length_append, List.length_singleton]
  by_cases h : 10 < l.length + 1
  · rw [if_pos h]
    have h1 : l.length + 1 - 10 = 1 := by omega
    rw [h1, List.drop_one]
  · rw [if_neg h]
    have h0 : l.length + 1 - 10 = 0 := by omega
    rw [h0, List.drop_zero]

/-- Folding `recordSuccess` over a list of timestamps keeps exactly the
last 10 of the accumulated sequence (accumulator version). -/
theorem recordSuccess_foldl (ts : List Int) :
    ∀ l : List Int, l.length ≤ 10 →
      List.foldl recordSuccess l ts = (l ++ ts).drop ((l ++ ts).length - 10) := by
  induction ts with
  | nil =>
    intro l hl
    simp [Nat.sub_eq_zero_of_le hl]
  | cons t ts2 ih =>
    intro l hl
    have hlen : (recordSuccess l t).length ≤ 10 := by
      rw [recordSuccess_eq_drop l t hl]
      simp only [List.length_drop, List.length_append, List.length_singleton]
      omega
    rw [List.foldl_cons, ih _ hlen, recordSuccess_eq_drop l t hl]
    have hk : (l ++ [t]).length - 10 ≤ (l ++ [t]).length := Nat.sub_le _ _
    rw [← List.drop_append_of_le_length hk, List.drop_drop]
    have hl1 : (l ++ [t]) ++ ts2 = l ++ t :: ts2 := by
      simp
    rw [hl1]
    congr 1
    simp only [List.length_drop, List.length_append, List.length_singleton,
      List.length_cons, List.length_nil]
    omega

/-- C5: starting from the empty tracker, any sequence of recorded
success timestamps leaves exactly the most recent `min(k, 10)` of them,
in order: the tracked list equals the input with all but the last 10
entries dropped, so its length is `min(k, 10)` and the oldest entries
are evicted first. -/
theorem c5_record_success_window (ts : List Int) :
    List.foldl recordSuccess [] ts = ts.drop (ts.length - 10)
    ∧ (List.foldl recordSuccess [] ts).length = min ts.length 10
    ∧ (List.foldl recordSuccess [] ts).length ≤ 10 := by
  have h := recordSuccess_foldl ts [] (by simp)
  simp only [List.nil_append] at h
  refine ⟨h, ?_, ?_⟩
  · rw [h]
    simp only [List.length_drop]
    omega
  · rw [h]
    simp only [List.length_drop]
    omega

/-- The outcome fields of `like_tweet` (success flag, message, trace) do
not depend on the recorded success timestamps: `last_request_time` is
only ever written, never read, by the like path. -/
theorem like_tweet_ignores_recent (hasClient : Bool) (lst1 lst2 : List Int)
    (rl : Bool) (reset retry : Int) (lresp : Option String)
    (tweet_id : String) (g : GetTweetOutcome) (l : LikeCallOutcome)
    (now : Int) :
    ((like_tweet hasClient ⟨lst2, rl, reset, retry, lresp⟩ tweet_id g l now).success
      = (like_tweet hasClient ⟨lst1, rl, reset, retry, lresp⟩ tweet_id g l now).success)
    ∧ ((like_tweet hasClient ⟨lst2, rl, reset, retry, lresp⟩ tweet_id g l now).msg
      = (like_tweet hasClient ⟨lst1, rl, reset, retry, lresp⟩ tweet_id g l now).msg)
    ∧ ((like_tweet hasClient ⟨lst2, rl, reset, retry, lresp⟩ tweet_id g l now).trace
      = (like_tweet hasClient ⟨lst1, rl, reset, retry, lresp⟩ tweet_id g l now).trace) := by
  cases hasClient with
  | false => simp [like_tweet]
  | true =>
    by_cases hc : (check_tweet g).1
    · rcases l with r | e
      · simp [like_tweet, hc]
      · rcases e with ⟨k, raw, resp⟩
        cases k <;> simp [like_tweet, hc]
    · simp only [Bool.not_eq_true] at hc
      simp [like_tweet, hc]

/-- The button flow likewise never reads the recorded success
timestamps: its displayed result and its trace of remote calls are the
same for any two states differing only in `last_request_time`. -/
theorem like_button_flow_ignores_recent (hasClient : Bool)
    (lst1 lst2 : List Int) (rl : Bool) (reset retry : Int)
    (lresp : Option String) (tweet_id : String) (g : GetTweetOutcome)
    (l : LikeCallOutcome) (now : Int) :
    ((like_button_flow hasClient ⟨lst2, rl, reset, retry, lresp⟩ tweet_id g l now).result
      = (like_button_flow hasClient ⟨lst1, rl, reset, retry, lresp⟩ tweet_id g l now).result)
    ∧ ((like_button_flow hasClient ⟨lst2, rl, reset, retry, lresp⟩ tweet_id g l now).trace
      = (like_button_flow hasClient ⟨lst1, rl, reset, retry, lresp⟩ tweet_id g l now).trace) := by
  by_cases hid : tweet_id = ""
  · simp [like_button_flow, hid]
  · cases rl with
    | false =>
      have h := like_tweet_ignores_recent hasClient lst1 lst2 false reset retry
        lresp tweet_id g l now
      simp [like_button_flow, hid, h.1, h.2.1, h.2.2]
    | true =>
      by_cases hrem : max (reset - now) 0 > 0
      · simp [like_button_flow, hid, hrem]
      · have h := like_tweet_ignores_recent hasClient lst1 lst2 false reset retry
          lresp tweet_id g l now
        simp [like_button_flow, hid, hrem, h.1, h.2.1, h.2.2]

/-- C7: the displayed capacity estimate for a non-empty tracked list with
oldest entry `t0` and count `c` is exactly
`max(50 - c * 86400 / max(now - t0, 1), 0)` (with exact rational
division); and the estimate is display-only — the outcome and the trace
of remote calls of the button flow are unchanged under any replacement
of the tracked timestamp list it is computed from. -/
theorem c7_estimate_formula_display_only (t0 : Int) (rest : List Int) (now : Int) :
    estimateRemaining (t0 :: rest) now =
      some (max (50 - ((t0 :: rest).length : ℚ) * 86400 / max ((now : ℚ) - (t0 : ℚ)) 1) 0)
    ∧ ∀ (hasClient : Bool) (st : AppState) (lst2 : List Int)
        (tweet_id : String) (g : GetTweetOutcome) (l : LikeCallOutcome)
        (nowI : Int),
        ((like_button_flow hasClient { st with last_request_time := lst2 } tweet_id g l nowI).result
          = (like_button_flow hasClient st tweet_id g l nowI).result)
        ∧ ((like_button_flow hasClient { st with last_request_time := lst2 } tweet_id g l nowI).trace
          = (like_button_flow hasClient st tweet_id g l nowI).trace) := by
  constructor
  · norm_num [estimateRemaining]
  · intro hasClient st lst2 tweet_id g l nowI
    obtain ⟨lst1, rl, reset, retry, lresp⟩ := st
    exact like_button_flow_ignores_recent hasClient lst1 lst2 rl reset retry
      lresp tweet_id g l nowI

/-- C8: when verification reports the target as missing — the not-found
exception from the fetch, or a response without data — `like_tweet`
returns the corresponding verify failure, issues no write call, and
returns the session state exactly as it was (so both the recorded
successes and the rate-limit fields are untouched). -/
theorem c8_not_found_leaves_tracker (st : AppState) (tweet_id raw : String)
    (resp : Option RespInfo) (txt : Option String) (l : LikeCallOutcome)
    (now : Int) :
    like_tweet true st tweet_id
        (.exc { kind := .notFoundE, raw := raw, response := resp }) l now =
      { state := st, success := false, msg := .cannotLike .notFoundMsg
        trace := { verifyCalled := true, likeCalled := false } }
    ∧ like_tweet true st tweet_id (.resp false txt) l now =
      { state := st, success := false, msg := .cannotLike .notAccessibleMsg
        trace := { verifyCalled := true, likeCalled := false } } := by
  constructor
  · simp [like_tweet, check_tweet]
  · simp [like_tweet, check_tweet]

/-- C9 counterexample: an invalid-credentials failure (the unauthorized
exception class) produces exactly the same result as an arbitrary other
failure with the same text and status — the single generic handler of
`authenticate_twitter` makes no Unauthorized-versus-Transport
distinction, and the unauthorized failure comes back as the generic
catch-all message, contradicting the claimed Unauthorized kind. -/
theorem c9_no_kind_distinction_counterexample :
    authenticate_twitter (.exc
        { kind := .unauthorizedE, raw := "401 Unauthorized",
          response := some { headers := { xRateLimitReset := none, retryAfter := none },
                             status_code := 401, text := some "Unauthorized" } })
      = authenticate_twitter (.exc
        { kind := .otherE, raw := "401 Unauthorized",
          response := some { headers := { xRateLimitReset := none, retryAfter := none },
                             status_code := 401, text := some "Unauthorized" } })
    ∧ authenticate_twitter (.exc
        { kind := .unauthorizedE, raw := "401 Unauthorized",
          response := some { headers := { xRateLimitReset := none, retryAfter := none },
                             status_code := 401, text := some "Unauthorized" } })
      = (none, false, .failedMsg "401 Unauthorized" (some 401) (some "Unauthorized")) := by
  exact ⟨rfl, rfl⟩

/-- C9 (amended): every failed authentication returns no session, and
every raised error — invalid credentials included — is reported through
the one uniform failure message carrying the raw error text, the status
code when a response is present, and the response body when readable;
no separate Unauthorized result exists. -/
theorem c9_auth_failure_uniform (getMe : GetMeOutcome) (e : RemoteExc) :
    ((authenticate_twitter getMe).2.1 = false →
      (authenticate_twitter getMe).1 = none)
    ∧ authenticate_twitter (.exc e) =
        (none, false,
          .failedMsg e.raw (e.response.map RespInfo.status_code)
            (e.response.bind RespInfo.text)) := by
  constructor
  · intro hf
    cases getMe <;> simp [authenticate_twitter] at hf ⊢
  · rfl

/-- Witness for C9 (amended): the data-less success still returns no
session; a concrete raised error yields the uniform failure triple. -/
theorem c9_auth_failure_uniform_witness :
    (authenticate_twitter .noData).2.1 = false
    ∧ (authenticate_twitter .noData).1 = none
    ∧ authenticate_twitter (.exc { kind := .unauthorizedE, raw := "bad", response := none }) =
        (none, false, .failedMsg "bad" none none) := by
  refine ⟨rfl, ?_, ?_⟩
  · exact (c9_auth_failure_uniform .noData
      { kind := .otherE, raw := "x", response := none }).1 rfl
  · exact (c9_auth_failure_uniform .noData
      { kind := .unauthorizedE, raw := "bad", response := none }).2

/-- C10: a rate-limit error raised by the verification fetch is caught
inside `check_tweet` and surfaces as the generic verify failure: the
result is a plain failure (not the rate-limit message), the session
state — in particular the `rate_limited` flag — is returned untouched,
and no write call is issued; moreover the `rate_limited` flag can only
change when the write call itself raised the too-many-requests error. -/
theorem c10_verify_rate_limit_isolated (st : AppState) (tweet_id raw : String)
    (resp : Option RespInfo) (l : LikeCallOutcome) (now : Int) :
    like_tweet true st tweet_id
        (.exc { kind := .tooManyRequestsE, raw := raw, response := resp }) l now =
      { state := st, success := false
        msg := .cannotLike (.errorCheckingMsg raw)
        trace := { verifyCalled := true, likeCalled := false } }
    ∧ ∀ (hasClient : Bool) (g : GetTweetOutcome) (lc : LikeCallOutcome),
        (like_tweet hasClient st tweet_id g lc now).state.rate_limited ≠ st.rate_limited →
        ∃ e2, lc = .exc e2 ∧ e2.kind = .tooManyRequestsE := by
  constructor
  · simp [like_tweet, check_tweet]
  · intro hasClient g lc hne
    cases hasClient with
    | false => simp [like_tweet] at hne
    | true =>
      by_cases hc : (check_tweet g).1
      · rcases lc with r | e
        · simp [like_tweet, hc] at hne
        · rcases e with ⟨k, raw2, resp2⟩
          cases k with
          | tooManyRequestsE =>
            exact ⟨{ kind := .tooManyRequestsE, raw := raw2, response := resp2 }, rfl, rfl⟩
          | notFoundE => simp [like_tweet, hc] at hne
          | unauthorizedE => simp [like_tweet, hc] at hne
          | forbiddenE => simp [like_tweet, hc] at hne
          | otherE => simp [like_tweet, hc] at hne
      · simp only [Bool.not_eq_true] at hc
        simp [like_tweet, hc] at hne

/-- Witness for C10: a write-action rate-limit error does flip the flag,
and the theorem pins it to the too-many-requests write error. -/
theorem c10_verify_rate_limit_isolated_witness :
    (like_tweet true initialState "1" (.resp true none)
        (.exc { kind := .tooManyRequestsE, raw := "429", response := none }) 0).state.rate_limited
      ≠ initialState.rate_limited
    ∧ ∃ e2, (LikeCallOutcome.exc { kind := .tooManyRequestsE, raw := "429", response := none })
        = .exc e2 ∧ e2.kind = .tooManyRequestsE := by
  refine ⟨by decide, ?_⟩
  exact (c10_verify_rate_limit_isolated initialState "1" "x" none
    (.exc { kind := .tooManyRequestsE, raw := "429", response := none }) 0).2
    true (.resp true none)
    (.exc { kind := .tooManyRequestsE, raw := "429", response := none })
    (by decide)
